import Mathlib

/-!
# The generated kernel header `notebook/sim/gen/rdd2.h`

The header is a sequence of preprocessor blocks, function prototypes and
object-like `#define`s.  It is embedded as a list of lines, in source order,
together with the two functions a C compiler applies to it: collecting the
prototypes and substituting the type names the header defines for itself.
-/

namespace Rdd2

/-- A C type as it is written in a prototype: a run of type-specifier tokens
(`int`, `casadi_real`, `long long int`), possibly `const`-qualified, under
any number of pointer declarators.  `const casadi_real**` is
`ptr (ptr (const casadi_real))`. -/
inductive CType where
  | base (spec : List String)
  | const (t : CType)
  | ptr (t : CType)
  deriving DecidableEq, Repr

namespace CType

def int : CType := base ["int"]
def void : CType := base ["void"]
def char : CType := base ["char"]
/-- The token `casadi_real`, before the preprocessor replaces it. -/
def casadi_real : CType := base ["casadi_real"]
/-- The token `casadi_int`, before the preprocessor replaces it. -/
def casadi_int : CType := base ["casadi_int"]
def double : CType := base ["double"]
def float : CType := base ["float"]
def long_long_int : CType := base ["long", "long", "int"]

end CType

/-- One parameter of a prototype. -/
structure Param where
  type : CType
  name : String
  deriving DecidableEq, Repr

/-- A function prototype `ret name(params);`.  The parameter list `(void)`
declares no parameters and is the empty list. -/
structure FunDecl where
  ret : CType
  name : String
  params : List Param
  deriving DecidableEq, Repr

/-- The lines of the header that reach the compiler. -/
inductive Line where
  /-- Lines 8-10: `#ifdef __cplusplus`, the opening of the C linkage block, `#endif`. -/
  | ifdef_cplusplus_open
  /-- Lines 167-169: `#ifdef __cplusplus`, the closing brace, `#endif`. -/
  | ifdef_cplusplus_close
  /-- The three lines `#ifndef name`, `#define name body`, `#endif`. -/
  | ifndef_define (name : String) (body : List String)
  | proto (d : FunDecl)
  /-- An unguarded `#define name body`. -/
  | define (name : String) (body : List String)
  deriving DecidableEq, Repr

open CType in
/-- Lines 20-40: the prototypes and size constants of `attitude_rate_control`. -/
def attitude_rate_control_block : List Line := [
  .proto ⟨int, "attitude_rate_control", [⟨ptr (ptr (const casadi_real)), "arg"⟩, ⟨ptr (ptr casadi_real), "res"⟩, ⟨ptr casadi_int, "iw"⟩, ⟨ptr casadi_real, "w"⟩, ⟨int, "mem"⟩]⟩,
  .proto ⟨int, "attitude_rate_control_alloc_mem", []⟩,
  .proto ⟨int, "attitude_rate_control_init_mem", [⟨int, "mem"⟩]⟩,
  .proto ⟨void, "attitude_rate_control_free_mem", [⟨int, "mem"⟩]⟩,
  .proto ⟨int, "attitude_rate_control_checkout", []⟩,
  .proto ⟨void, "attitude_rate_control_release", [⟨int, "mem"⟩]⟩,
  .proto ⟨void, "attitude_rate_control_incref", []⟩,
  .proto ⟨void, "attitude_rate_control_decref", []⟩,
  .proto ⟨casadi_int, "attitude_rate_control_n_in", []⟩,
  .proto ⟨casadi_int, "attitude_rate_control_n_out", []⟩,
  .proto ⟨casadi_real, "attitude_rate_control_default_in", [⟨casadi_int, "i"⟩]⟩,
  .proto ⟨(ptr (const char)), "attitude_rate_control_name_in", [⟨casadi_int, "i"⟩]⟩,
  .proto ⟨(ptr (const char)), "attitude_rate_control_name_out", [⟨casadi_int, "i"⟩]⟩,
  .proto ⟨(ptr (const casadi_int)), "attitude_rate_control_sparsity_in", [⟨casadi_int, "i"⟩]⟩,
  .proto ⟨(ptr (const casadi_int)), "attitude_rate_control_sparsity_out", [⟨casadi_int, "i"⟩]⟩,
  .proto ⟨int, "attitude_rate_control_work", [⟨ptr casadi_int, "sz_arg"⟩, ⟨ptr casadi_int, "sz_res"⟩, ⟨ptr casadi_int, "sz_iw"⟩, ⟨ptr casadi_int, "sz_w"⟩]⟩,
  .proto ⟨int, "attitude_rate_control_work_bytes", [⟨ptr casadi_int, "sz_arg"⟩, ⟨ptr casadi_int, "sz_res"⟩, ⟨ptr casadi_int, "sz_iw"⟩, ⟨ptr casadi_int, "sz_w"⟩]⟩,
  .define "attitude_rate_control_SZ_ARG" ["11"],
  .define "attitude_rate_control_SZ_RES" ["5"],
  .define "attitude_rate_control_SZ_IW" ["0"],
  .define "attitude_rate_control_SZ_W" ["17"]
]

open CType in
/-- Lines 41-61: the prototypes and size constants of `attitude_control`. -/
def attitude_control_block : List Line := [
  .proto ⟨int, "attitude_control", [⟨ptr (ptr (const casadi_real)), "arg"⟩, ⟨ptr (ptr casadi_real), "res"⟩, ⟨ptr casadi_int, "iw"⟩, ⟨ptr casadi_real, "w"⟩, ⟨int, "mem"⟩]⟩,
  .proto ⟨int, "attitude_control_alloc_mem", []⟩,
  .proto ⟨int, "attitude_control_init_mem", [⟨int, "mem"⟩]⟩,
  .proto ⟨void, "attitude_control_free_mem", [⟨int, "mem"⟩]⟩,
  .proto ⟨int, "attitude_control_checkout", []⟩,
  .proto ⟨void, "attitude_control_release", [⟨int, "mem"⟩]⟩,
  .proto ⟨void, "attitude_control_incref", []⟩,
  .proto ⟨void, "attitude_control_decref", []⟩,
  .proto ⟨casadi_int, "attitude_control_n_in", []⟩,
  .proto ⟨casadi_int, "attitude_control_n_out", []⟩,
  .proto ⟨casadi_real, "attitude_control_default_in", [⟨casadi_int, "i"⟩]⟩,
  .proto ⟨(ptr (const char)), "attitude_control_name_in", [⟨casadi_int, "i"⟩]⟩,
  .proto ⟨(ptr (const char)), "attitude_control_name_out", [⟨casadi_int, "i"⟩]⟩,
  .proto ⟨(ptr (const casadi_int)), "attitude_control_sparsity_in", [⟨casadi_int, "i"⟩]⟩,
  .proto ⟨(ptr (const casadi_int)), "attitude_control_sparsity_out", [⟨casadi_int, "i"⟩]⟩,
  .proto ⟨int, "attitude_control_work", [⟨ptr casadi_int, "sz_arg"⟩, ⟨ptr casadi_int, "sz_res"⟩, ⟨ptr casadi_int, "sz_iw"⟩, ⟨ptr casadi_int, "sz_w"⟩]⟩,
  .proto ⟨int, "attitude_control_work_bytes", [⟨ptr casadi_int, "sz_arg"⟩, ⟨ptr casadi_int, "sz_res"⟩, ⟨ptr casadi_int, "sz_iw"⟩, ⟨ptr casadi_int, "sz_w"⟩]⟩,
  .define "attitude_control_SZ_ARG" ["3"],
  .define "attitude_control_SZ_RES" ["1"],
  .define "attitude_control_SZ_IW" ["0"],
  .define "attitude_control_SZ_W" ["15"]
]

open CType in
/-- Lines 62-82: the prototypes and size constants of `position_control`. -/
def position_control_block : List Line := [
  .proto ⟨int, "position_control", [⟨ptr (ptr (const casadi_real)), "arg"⟩, ⟨ptr (ptr casadi_real), "res"⟩, ⟨ptr casadi_int, "iw"⟩, ⟨ptr casadi_real, "w"⟩, ⟨int, "mem"⟩]⟩,
  .proto ⟨int, "position_control_alloc_mem", []⟩,
  .proto ⟨int, "position_control_init_mem", [⟨int, "mem"⟩]⟩,
  .proto ⟨void, "position_control_free_mem", [⟨int, "mem"⟩]⟩,
  .proto ⟨int, "position_control_checkout", []⟩,
  .proto ⟨void, "position_control_release", [⟨int, "mem"⟩]⟩,
  .proto ⟨void, "position_control_incref", []⟩,
  .proto ⟨void, "position_control_decref", []⟩,
  .proto ⟨casadi_int, "position_control_n_in", []⟩,
  .proto ⟨casadi_int, "position_control_n_out", []⟩,
  .proto ⟨casadi_real, "position_control_default_in", [⟨casadi_int, "i"⟩]⟩,
  .proto ⟨(ptr (const char)), "position_control_name_in", [⟨casadi_int, "i"⟩]⟩,
  .proto ⟨(ptr (const char)), "position_control_name_out", [⟨casadi_int, "i"⟩]⟩,
  .proto ⟨(ptr (const casadi_int)), "position_control_sparsity_in", [⟨casadi_int, "i"⟩]⟩,
  .proto ⟨(ptr (const casadi_int)), "position_control_sparsity_out", [⟨casadi_int, "i"⟩]⟩,
  .proto ⟨int, "position_control_work", [⟨ptr casadi_int, "sz_arg"⟩, ⟨ptr casadi_int, "sz_res"⟩, ⟨ptr casadi_int, "sz_iw"⟩, ⟨ptr casadi_int, "sz_w"⟩]⟩,
  .proto ⟨int, "position_control_work_bytes", [⟨ptr casadi_int, "sz_arg"⟩, ⟨ptr casadi_int, "sz_res"⟩, ⟨ptr casadi_int, "sz_iw"⟩, ⟨ptr casadi_int, "sz_w"⟩]⟩,
  .define "position_control_SZ_ARG" ["10"],
  .define "position_control_SZ_RES" ["3"],
  .define "position_control_SZ_IW" ["0"],
  .define "position_control_SZ_W" ["30"]
]

open CType in
/-- Lines 83-103: the prototypes and size constants of `joy_acro`. -/
def joy_acro_block : List Line := [
  .proto ⟨int, "joy_acro", [⟨ptr (ptr (const casadi_real)), "arg"⟩, ⟨ptr (ptr casadi_real), "res"⟩, ⟨ptr casadi_int, "iw"⟩, ⟨ptr casadi_real, "w"⟩, ⟨int, "mem"⟩]⟩,
  .proto ⟨int, "joy_acro_alloc_mem", []⟩,
  .proto ⟨int, "joy_acro_init_mem", [⟨int, "mem"⟩]⟩,
  .proto ⟨void, "joy_acro_free_mem", [⟨int, "mem"⟩]⟩,
  .proto ⟨int, "joy_acro_checkout", []⟩,
  .proto ⟨void, "joy_acro_release", [⟨int, "mem"⟩]⟩,
  .proto ⟨void, "joy_acro_incref", []⟩,
  .proto ⟨void, "joy_acro_decref", []⟩,
  .proto ⟨casadi_int, "joy_acro_n_in", []⟩,
  .proto ⟨casadi_int, "joy_acro_n_out", []⟩,
  .proto ⟨casadi_real, "joy_acro_default_in", [⟨casadi_int, "i"⟩]⟩,
  .proto ⟨(ptr (const char)), "joy_acro_name_in", [⟨casadi_int, "i"⟩]⟩,
  .proto ⟨(ptr (const char)), "joy_acro_name_out", [⟨casadi_int, "i"⟩]⟩,
  .proto ⟨(ptr (const casadi_int)), "joy_acro_sparsity_in", [⟨casadi_int, "i"⟩]⟩,
  .proto ⟨(ptr (const casadi_int)), "joy_acro_sparsity_out", [⟨casadi_int, "i"⟩]⟩,
  .proto ⟨int, "joy_acro_work", [⟨ptr casadi_int, "sz_arg"⟩, ⟨ptr casadi_int, "sz_res"⟩, ⟨ptr casadi_int, "sz_iw"⟩, ⟨ptr casadi_int, "sz_w"⟩]⟩,
  .proto ⟨int, "joy_acro_work_bytes", [⟨ptr casadi_int, "sz_arg"⟩, ⟨ptr casadi_int, "sz_res"⟩, ⟨ptr casadi_int, "sz_iw"⟩, ⟨ptr casadi_int, "sz_w"⟩]⟩,
  .define "joy_acro_SZ_ARG" ["6"],
  .define "joy_acro_SZ_RES" ["2"],
  .define "joy_acro_SZ_IW" ["0"],
  .define "joy_acro_SZ_W" ["2"]
]

open CType in
/-- Lines 104-124: the prototypes and size constants of `joy_auto_level`. -/
def joy_auto_level_block : List Line := [
  .proto ⟨int, "joy_auto_level", [⟨ptr (ptr (const casadi_real)), "arg"⟩, ⟨ptr (ptr casadi_real), "res"⟩, ⟨ptr casadi_int, "iw"⟩, ⟨ptr casadi_real, "w"⟩, ⟨int, "mem"⟩]⟩,
  .proto ⟨int, "joy_auto_level_alloc_mem", []⟩,
  .proto ⟨int, "joy_auto_level_init_mem", [⟨int, "mem"⟩]⟩,
  .proto ⟨void, "joy_auto_level_free_mem", [⟨int, "mem"⟩]⟩,
  .proto ⟨int, "joy_auto_level_checkout", []⟩,
  .proto ⟨void, "joy_auto_level_release", [⟨int, "mem"⟩]⟩,
  .proto ⟨void, "joy_auto_level_incref", []⟩,
  .proto ⟨void, "joy_auto_level_decref", []⟩,
  .proto ⟨casadi_int, "joy_auto_level_n_in", []⟩,
  .proto ⟨casadi_int, "joy_auto_level_n_out", []⟩,
  .proto ⟨casadi_real, "joy_auto_level_default_in", [⟨casadi_int, "i"⟩]⟩,
  .proto ⟨(ptr (const char)), "joy_auto_level_name_in", [⟨casadi_int, "i"⟩]⟩,
  .proto ⟨(ptr (const char)), "joy_auto_level_name_out", [⟨casadi_int, "i"⟩]⟩,
  .proto ⟨(ptr (const casadi_int)), "joy_auto_level_sparsity_in", [⟨casadi_int, "i"⟩]⟩,
  .proto ⟨(ptr (const casadi_int)), "joy_auto_level_sparsity_out", [⟨casadi_int, "i"⟩]⟩,
  .proto ⟨int, "joy_auto_level_work", [⟨ptr casadi_int, "sz_arg"⟩, ⟨ptr casadi_int, "sz_res"⟩, ⟨ptr casadi_int, "sz_iw"⟩, ⟨ptr casadi_int, "sz_w"⟩]⟩,
  .proto ⟨int, "joy_auto_level_work_bytes", [⟨ptr casadi_int, "sz_arg"⟩, ⟨ptr casadi_int, "sz_res"⟩, ⟨ptr casadi_int, "sz_iw"⟩, ⟨ptr casadi_int, "sz_w"⟩]⟩,
  .define "joy_auto_level_SZ_ARG" ["7"],
  .define "joy_auto_level_SZ_RES" ["2"],
  .define "joy_auto_level_SZ_IW" ["0"],
  .define "joy_auto_level_SZ_W" ["28"]
]

open CType in
/-- Lines 125-145: the prototypes and size constants of `strapdown_ins_propagate`. -/
def strapdown_ins_propagate_block : List Line := [
  .proto ⟨int, "strapdown_ins_propagate", [⟨ptr (ptr (const casadi_real)), "arg"⟩, ⟨ptr (ptr casadi_real), "res"⟩, ⟨ptr casadi_int, "iw"⟩, ⟨ptr casadi_real, "w"⟩, ⟨int, "mem"⟩]⟩,
  .proto ⟨int, "strapdown_ins_propagate_alloc_mem", []⟩,
  .proto ⟨int, "strapdown_ins_propagate_init_mem", [⟨int, "mem"⟩]⟩,
  .proto ⟨void, "strapdown_ins_propagate_free_mem", [⟨int, "mem"⟩]⟩,
  .proto ⟨int, "strapdown_ins_propagate_checkout", []⟩,
  .proto ⟨void, "strapdown_ins_propagate_release", [⟨int, "mem"⟩]⟩,
  .proto ⟨void, "strapdown_ins_propagate_incref", []⟩,
  .proto ⟨void, "strapdown_ins_propagate_decref", []⟩,
  .proto ⟨casadi_int, "strapdown_ins_propagate_n_in", []⟩,
  .proto ⟨casadi_int, "strapdown_ins_propagate_n_out", []⟩,
  .proto ⟨casadi_real, "strapdown_ins_propagate_default_in", [⟨casadi_int, "i"⟩]⟩,
  .proto ⟨(ptr (const char)), "strapdown_ins_propagate_name_in", [⟨casadi_int, "i"⟩]⟩,
  .proto ⟨(ptr (const char)), "strapdown_ins_propagate_name_out", [⟨casadi_int, "i"⟩]⟩,
  .proto ⟨(ptr (const casadi_int)), "strapdown_ins_propagate_sparsity_in", [⟨casadi_int, "i"⟩]⟩,
  .proto ⟨(ptr (const casadi_int)), "strapdown_ins_propagate_sparsity_out", [⟨casadi_int, "i"⟩]⟩,
  .proto ⟨int, "strapdown_ins_propagate_work", [⟨ptr casadi_int, "sz_arg"⟩, ⟨ptr casadi_int, "sz_res"⟩, ⟨ptr casadi_int, "sz_iw"⟩, ⟨ptr casadi_int, "sz_w"⟩]⟩,
  .proto ⟨int, "strapdown_ins_propagate_work_bytes", [⟨ptr casadi_int, "sz_arg"⟩, ⟨ptr casadi_int, "sz_res"⟩, ⟨ptr casadi_int, "sz_iw"⟩, ⟨ptr casadi_int, "sz_w"⟩]⟩,
  .define "strapdown_ins_propagate_SZ_ARG" ["5"],
  .define "strapdown_ins_propagate_SZ_RES" ["1"],
  .define "strapdown_ins_propagate_SZ_IW" ["0"],
  .define "strapdown_ins_propagate_SZ_W" ["45"]
]

open CType in
/-- Lines 146-166: the prototypes and size constants of `control_allocation`. -/
def control_allocation_block : List Line := [
  .proto ⟨int, "control_allocation", [⟨ptr (ptr (const casadi_real)), "arg"⟩, ⟨ptr (ptr casadi_real), "res"⟩, ⟨ptr casadi_int, "iw"⟩, ⟨ptr casadi_real, "w"⟩, ⟨int, "mem"⟩]⟩,
  .proto ⟨int, "control_allocation_alloc_mem", []⟩,
  .proto ⟨int, "control_allocation_init_mem", [⟨int, "mem"⟩]⟩,
  .proto ⟨void, "control_allocation_free_mem", [⟨int, "mem"⟩]⟩,
  .proto ⟨int, "control_allocation_checkout", []⟩,
  .proto ⟨void, "control_allocation_release", [⟨int, "mem"⟩]⟩,
  .proto ⟨void, "control_allocation_incref", []⟩,
  .proto ⟨void, "control_allocation_decref", []⟩,
  .proto ⟨casadi_int, "control_allocation_n_in", []⟩,
  .proto ⟨casadi_int, "control_allocation_n_out", []⟩,
  .proto ⟨casadi_real, "control_allocation_default_in", [⟨casadi_int, "i"⟩]⟩,
  .proto ⟨(ptr (const char)), "control_allocation_name_in", [⟨casadi_int, "i"⟩]⟩,
  .proto ⟨(ptr (const char)), "control_allocation_name_out", [⟨casadi_int, "i"⟩]⟩,
  .proto ⟨(ptr (const casadi_int)), "control_allocation_sparsity_in", [⟨casadi_int, "i"⟩]⟩,
  .proto ⟨(ptr (const casadi_int)), "control_allocation_sparsity_out", [⟨casadi_int, "i"⟩]⟩,
  .proto ⟨int, "control_allocation_work", [⟨ptr casadi_int, "sz_arg"⟩, ⟨ptr casadi_int, "sz_res"⟩, ⟨ptr casadi_int, "sz_iw"⟩, ⟨ptr casadi_int, "sz_w"⟩]⟩,
  .proto ⟨int, "control_allocation_work_bytes", [⟨ptr casadi_int, "sz_arg"⟩, ⟨ptr casadi_int, "sz_res"⟩, ⟨ptr casadi_int, "sz_iw"⟩, ⟨ptr casadi_int, "sz_w"⟩]⟩,
  .define "control_allocation_SZ_ARG" ["6"],
  .define "control_allocation_SZ_RES" ["1"],
  .define "control_allocation_SZ_IW" ["0"],
  .define "control_allocation_SZ_W" ["25"]
]

/-- The header, in source order: the linkage guard, the two guarded type
definitions (lines 12-18), the seven kernel blocks, the closing guard. -/
def rdd2_h : List Line :=
  [.ifdef_cplusplus_open,
   .ifndef_define "casadi_real" ["double"],
   .ifndef_define "casadi_int" ["long", "long", "int"]]
  ++ attitude_rate_control_block ++ attitude_control_block ++ position_control_block
  ++ joy_acro_block ++ joy_auto_level_block ++ strapdown_ins_propagate_block
  ++ control_allocation_block
  ++ [.ifdef_cplusplus_close]

/-- The prototypes of a header, in source order, as written. -/
def prototypes : List Line → List FunDecl
  | [] => []
  | .proto d :: ls => d :: prototypes ls
  | _ :: ls => prototypes ls

/-- The unguarded `#define`s of a header, in source order. -/
def defines : List Line → List (String × List String)
  | [] => []
  | .define n b :: ls => (n, b) :: defines ls
  | _ :: ls => defines ls

/-- The seven kernels. -/
def kernels : List String :=
  ["attitude_rate_control", "attitude_control", "position_control", "joy_acro",
   "joy_auto_level", "strapdown_ins_propagate", "control_allocation"]

/-- The suffixes of the per-kernel function set: the evaluation function
carries the bare kernel name. -/
def memberSuffixes : List String :=
  ["", "_alloc_mem", "_init_mem", "_free_mem", "_checkout", "_release", "_incref", "_decref",
   "_n_in", "_n_out", "_default_in", "_name_in", "_name_out", "_sparsity_in", "_sparsity_out",
   "_work", "_work_bytes"]

/-- The names a header declares, in source order. -/
def declaredNames (h : List Line) : List String :=
  (prototypes h).map (fun d => d.name)

/-- The per-kernel function set over a list of kernels: every kernel name
followed by every suffix, kernel by kernel. -/
def functionSet (ks : List String) : List String :=
  ks.flatMap (fun k => memberSuffixes.map (fun s => k ++ s))

/-- The four size constants of a kernel, by suffix. -/
def sizeSuffixes : List String := ["_SZ_ARG", "_SZ_RES", "_SZ_IW", "_SZ_W"]

/-- The size-constant names over a list of kernels, kernel by kernel. -/
def sizeConstantSet (ks : List String) : List String :=
  ks.flatMap (fun k => sizeSuffixes.map (fun s => k ++ s))

/-- The value of a decimal digit. -/
def digitValue (c : Char) : Option Nat :=
  if 48 ≤ c.toNat ∧ c.toNat ≤ 57 then some (c.toNat - 48) else none

/-- The value of a run of decimal digits, most significant first. -/
def decimalValue : List Char → Nat → Option Nat
  | [], acc => some acc
  | c :: cs, acc =>
    match digitValue c with
    | some d => decimalValue cs (10 * acc + d)
    | none => none

/-- The value of a token read as a C integer literal without suffix: `0`, or
a decimal literal, which starts with a nonzero digit.  A sign is not part of
a literal.  Octal and hexadecimal literals do not occur in the header and are
not read. -/
def intLiteral? (tok : String) : Option Nat :=
  match tok.data with
  | [] => none
  | [c] => digitValue c
  | c :: cs => if c = '0' then none else decimalValue (c :: cs) 0

/-- The value a name has as a size constant: the name has exactly one
unguarded `#define`, whose body is one integer literal. -/
def sizeConstant (h : List Line) (name : String) : Option Nat :=
  match (defines h).filter (fun p => p.1 = name) with
  | [(_, [tok])] => intLiteral? tok
  | _ => none

/-- The names a header defines under an `#ifndef` guard. -/
def guardedNames : List Line → List String
  | [] => []
  | .ifndef_define n _ :: ls => n :: guardedNames ls
  | _ :: ls => guardedNames ls

/-- The names a header defines, under a guard or without. -/
def definedNames (h : List Line) : List String :=
  guardedNames h ++ (defines h).map Prod.fst

/-- The identifiers and keywords a type is written with; `*` is none. -/
def CType.words : CType → List String
  | .base spec => spec
  | .const t => "const" :: t.words
  | .ptr t => t.words

/-- The identifiers and keywords a prototype is written with. -/
def FunDecl.words (d : FunDecl) : List String :=
  d.ret.words ++ d.name :: d.params.flatMap (fun p => p.type.words ++ [p.name])

/-- The identifiers and keywords of the header text that a definition made
before the header could replace: those of the prototypes, the defined names
and their bodies, and the linkage keyword of line 9. -/
def identifiers : List Line → List String
  | [] => []
  | .ifdef_cplusplus_open :: ls => "extern" :: identifiers ls
  | .ifdef_cplusplus_close :: ls => identifiers ls
  | .ifndef_define n b :: ls => n :: b ++ identifiers ls
  | .proto d :: ls => d.words ++ identifiers ls
  | .define n b :: ls => n :: b ++ identifiers ls

/-- Object-like definitions in force, a name with its replacement tokens,
the most recent first: the first binding of a name is the one in force. -/
abbrev Definitions := List (String × List String)

/-- What the including translation unit has defined before the header. -/
abbrev Predefined := Definitions

/-- The header included on its own: nothing is defined beforehand. -/
def nothingPredefined : Predefined := []

/-- A translation unit compiled with `-Dcasadi_real=float`. -/
def realIsFloat : Predefined := [("casadi_real", ["float"])]

/-- A translation unit compiled with `-DNDEBUG -Dcasadi_int=long`. -/
def intIsLong : Predefined := [("NDEBUG", []), ("casadi_int", ["long"])]

/-- Replacement of one token: a defined name is replaced by its body and the
body is scanned again, the name itself no longer being replaced there.  Every
level of replacement takes a name out of the table, so `m.length` levels
exhaust it; `fuel` counts the levels. -/
def expandToken : Nat → Definitions → String → List String
  | 0, _, t => [t]
  | fuel + 1, m, t =>
    match m.lookup t with
    | none => [t]
    | some b => b.flatMap (expandToken fuel (m.filter (fun p => p.1 ≠ t)))

/-- Replacement in a type: every specifier token is replaced. -/
def expand (m : Definitions) : CType → CType
  | .base spec => .base (spec.flatMap (expandToken m.length m))
  | .const t => .const (expand m t)
  | .ptr t => .ptr (expand m t)

/-- A prototype after replacement in its types.  The names of the function
and of its parameters are kept as written. -/
def expandDecl (m : Definitions) (d : FunDecl) : FunDecl :=
  { ret := expand m d.ret
    name := d.name
    params := d.params.map (fun p => { type := expand m p.type, name := p.name }) }

/-- The lines `#ifndef n`, `#define n b`, `#endif`: `n` is defined as `b`
unless it is defined already. -/
def defineIfAbsent (m : Definitions) (n : String) (b : List String) : Definitions :=
  match m.lookup n with
  | some _ => m
  | none => (n, b) :: m

/-- One pass of the preprocessor over the header, `m` holding the definitions
in force: a guarded definition is made unless the name is defined, by the
translation unit or by an earlier line; `#define n b` defines `n`; a
prototype is emitted with the definitions in force at its line.  The linkage
guard emits no declaration. -/
def preprocess : Definitions → List Line → List FunDecl
  | _, [] => []
  | m, .ifndef_define n b :: ls => preprocess (defineIfAbsent m n b) ls
  | m, .define n b :: ls => preprocess ((n, b) :: m) ls
  | m, .proto d :: ls => expandDecl m d :: preprocess m ls
  | m, _ :: ls => preprocess m ls

/-- The declarations as they stand after preprocessing, when the header is
included after the definitions `pre`. -/
def declarations (pre : Predefined) : List FunDecl := preprocess pre rdd2_h

/-- A token made of letters, digits and underscores. -/
def isWord (t : String) : Bool :=
  !t.data.isEmpty && t.data.all (fun c => c.isAlphanum || c = '_')

/-- The translation unit leaves the words of the header alone: of the
identifiers and keywords in the header text it defines at most the two names
the header guards. -/
def LeavesHeaderWords (pre : Predefined) : Prop :=
  ∀ n ∈ identifiers rdd2_h, n ∉ guardedNames rdd2_h → pre.lookup n = none

/-- What the translation unit defines a guarded name as is a run of words,
not empty, none of them a name that it or the header defines. -/
def GuardedBodiesPlain (pre : Predefined) : Prop :=
  ∀ n ∈ guardedNames rdd2_h, pre.lookup n ≠ some [] ∧
    ∀ t ∈ (pre.lookup n).getD [],
      isWord t = true ∧ pre.lookup t = none ∧ t ∉ definedNames rdd2_h

instance (pre : Predefined) : Decidable (LeavesHeaderWords pre) := by
  unfold LeavesHeaderWords; infer_instance

instance (pre : Predefined) : Decidable (GuardedBodiesPlain pre) := by
  unfold GuardedBodiesPlain; infer_instance

/-- Replacement of the two guarded names by given bodies. -/
def substToken (r i : List String) (t : String) : List String :=
  if t = "casadi_real" then r else if t = "casadi_int" then i else [t]

/-- Replacement of the two guarded names in a type. -/
def substType (r i : List String) : CType → CType
  | .base spec => .base (spec.flatMap (substToken r i))
  | .const t => .const (substType r i t)
  | .ptr t => .ptr (substType r i t)

/-- Replacement of the two guarded names in a prototype. -/
def substDecl (r i : List String) (d : FunDecl) : FunDecl :=
  { ret := substType r i d.ret
    name := d.name
    params := d.params.map (fun p => { type := substType r i p.type, name := p.name }) }

/-- The specifier tokens of a type. -/
def CType.specTokens : CType → List String
  | .base spec => spec
  | .const t => t.specTokens
  | .ptr t => t.specTokens

/-- The specifier tokens of the types of a prototype. -/
def FunDecl.specTokens (d : FunDecl) : List String :=
  d.ret.specTokens ++ d.params.flatMap (fun p => p.type.specTokens)

/-- The lines after the two guarded definitions. -/
def kernelLines : List Line :=
  attitude_rate_control_block ++ (attitude_control_block ++ (position_control_block
  ++ (joy_acro_block ++ (joy_auto_level_block ++ (strapdown_ins_propagate_block
  ++ (control_allocation_block ++ [.ifdef_cplusplus_close]))))))

/-- The specifier tokens that occur in the prototypes of the header. -/
def headerSpecTokens : List String := ["int", "void", "char", "casadi_real", "casadi_int"]

/-- The definitions in force settle the specifier tokens `T`: the two guarded
names stand for `r` and `i`, whose tokens are not defined, and no other token
of `T` is defined. -/
def Settled (m : Definitions) (r i T : List String) : Prop :=
  m.lookup "casadi_real" = some r ∧ m.lookup "casadi_int" = some i ∧
  (∀ t ∈ r, m.lookup t = none) ∧ (∀ t ∈ i, m.lookup t = none) ∧
  (∀ t ∈ T, t ≠ "casadi_real" → t ≠ "casadi_int" → m.lookup t = none)

/-- The declaration of a name, if there is one. -/
def findDecl (ds : List FunDecl) (name : String) : Option FunDecl :=
  ds.find? (fun d => d.name = name)

/-- The return type and the parameter types of a declaration. -/
def FunDecl.signature (d : FunDecl) : CType × List CType :=
  (d.ret, d.params.map (fun p => p.type))

/-- The signature under which a name is declared. -/
def sigOf (ds : List FunDecl) (name : String) : Option (CType × List CType) :=
  (findDecl ds name).map FunDecl.signature

/-- Replacement of the two guarded names in a signature. -/
def substSig (r i : List String) (s : CType × List CType) : CType × List CType :=
  (substType r i s.1, s.2.map (substType r i))

open CType in
/-- The evaluation prototype of line 20 with the function name replaced. -/
def evalDecl (k : String) : FunDecl :=
  ⟨int, k, [⟨ptr (ptr (const casadi_real)), "arg"⟩, ⟨ptr (ptr casadi_real), "res"⟩,
            ⟨ptr casadi_int, "iw"⟩, ⟨ptr casadi_real, "w"⟩, ⟨int, "mem"⟩]⟩

open CType in
/-- The lifecycle interface of kernel `k` among the declarations `ds`, with
handle type `h`: the signatures of the seven lifecycle functions, and `h` as
the type of the last parameter of the evaluation function. -/
def lifecycleWithHandle (h : CType) (ds : List FunDecl) (k : String) : Prop :=
  sigOf ds (k ++ "_alloc_mem") = some (h, []) ∧
  sigOf ds (k ++ "_checkout") = some (h, []) ∧
  sigOf ds (k ++ "_init_mem") = some (int, [h]) ∧
  sigOf ds (k ++ "_free_mem") = some (void, [h]) ∧
  sigOf ds (k ++ "_release") = some (void, [h]) ∧
  sigOf ds (k ++ "_incref") = some (void, []) ∧
  sigOf ds (k ++ "_decref") = some (void, []) ∧
  (sigOf ds k).bind (fun s => s.2.getLast?) = some h

open CType in
/-- The floating-point positions of kernel `k` have type `r` and its size
and index positions have type `i`: the elements of the argument and result
arrays, the real scratch and the return of `default_in`; the integer scratch,
the index parameters, the returns of `n_in`/`n_out`, the sparsity arrays and
the out-parameters of `work`/`work_bytes`. -/
def numericTypes (r i : CType) (ds : List FunDecl) (k : String) : Prop :=
  sigOf ds k = some (int, [ptr (ptr (const r)), ptr (ptr r), ptr i, ptr r, int]) ∧
  sigOf ds (k ++ "_default_in") = some (r, [i]) ∧
  sigOf ds (k ++ "_n_in") = some (i, []) ∧
  sigOf ds (k ++ "_n_out") = some (i, []) ∧
  sigOf ds (k ++ "_name_in") = some (ptr (const char), [i]) ∧
  sigOf ds (k ++ "_name_out") = some (ptr (const char), [i]) ∧
  sigOf ds (k ++ "_sparsity_in") = some (ptr (const i), [i]) ∧
  sigOf ds (k ++ "_sparsity_out") = some (ptr (const i), [i]) ∧
  sigOf ds (k ++ "_work") = some (int, [ptr i, ptr i, ptr i, ptr i]) ∧
  sigOf ds (k ++ "_work_bytes") = some (int, [ptr i, ptr i, ptr i, ptr i])

instance (h : CType) (ds : List FunDecl) (k : String) : Decidable (lifecycleWithHandle h ds k) := by
  unfold lifecycleWithHandle; infer_instance

instance (r i : CType) (ds : List FunDecl) (k : String) : Decidable (numericTypes r i ds k) := by
  unfold numericTypes; infer_instance

end Rdd2

/-!
## Memory instance manager

The bodies of `<k>_alloc_mem`, `<k>_init_mem`, `<k>_free_mem`, `<k>_checkout`,
`<k>_release`, `<k>_incref` and `<k>_decref` are in the generated C file, of
which the sources hold only this header.  The manager is therefore modelled
from sections 3 and 4.2 of the specification.
-/

namespace MemoryInstanceManager

end MemoryInstanceManager

/-!
## Strapdown propagation

The body of `strapdown_ins_propagate` is in the generated C file as well; the
kernel is modelled from section 4.3 of the specification, in exact rational
arithmetic on finite values; rounding and non-finite values are outside the
model.
-/

namespace StateEstimator

/-- Modelled from the spec: a vector of three components, for the quantities
of the absent body of `strapdown_ins_propagate`. -/
structure Vec3 where
  x : ℚ
  y : ℚ
  z : ℚ
  deriving DecidableEq, Repr

namespace Vec3

def zero : Vec3 := ⟨0, 0, 0⟩
end Vec3

end StateEstimator

/-!
## The header's declarations
-/

namespace Rdd2

open CType

set_option maxRecDepth 100000

theorem lookup_cons_self (m : Definitions) (n : String) (b : List String) :
    List.lookup n ((n, b) :: m) = some b := by
  rw [List.lookup_cons, beq_self_eq_true]

theorem lookup_cons_ne (m : Definitions) (u n : String) (b : List String) (h : u ≠ n) :
    List.lookup u ((n, b) :: m) = List.lookup u m := by
  have hb : (u == n) = false := beq_false_of_ne h
  rw [List.lookup_cons, hb]

theorem filter_cons_self (m : Definitions) (t : String) (b : List String) :
    List.filter (fun p => decide (p.1 ≠ t)) ((t, b) :: m)
      = List.filter (fun p => decide (p.1 ≠ t)) m := by
  rw [List.filter_cons]
  simp

theorem filter_cons_ne (m : Definitions) (t n : String) (b : List String) (h : n ≠ t) :
    List.filter (fun p => decide (p.1 ≠ t)) ((n, b) :: m)
      = (n, b) :: List.filter (fun p => decide (p.1 ≠ t)) m := by
  rw [List.filter_cons]
  simp [h]

theorem lookup_filter_none (m : Definitions) (t u : String) (h : List.lookup u m = none) :
    List.lookup u (m.filter (fun p => decide (p.1 ≠ t))) = none := by
  induction m with
  | nil => rfl
  | cons p m ih =>
    obtain ⟨n, b⟩ := p
    by_cases hu : u = n
    · subst hu
      rw [lookup_cons_self] at h
      cases h
    · rw [lookup_cons_ne _ _ _ _ hu] at h
      by_cases hn : n = t
      · subst hn
        rw [filter_cons_self]
        exact ih h
      · rw [filter_cons_ne _ _ _ _ hn, lookup_cons_ne _ _ _ _ hu]
        exact ih h

theorem length_filter_lt (m : Definitions) (t : String) (b : List String)
    (h : List.lookup t m = some b) :
    (m.filter (fun p => decide (p.1 ≠ t))).length < m.length := by
  induction m with
  | nil => cases h
  | cons p m ih =>
    obtain ⟨n, c⟩ := p
    by_cases hn : n = t
    · subst hn
      rw [filter_cons_self, List.length_cons]
      exact Nat.lt_succ_of_le (List.length_filter_le _ _)
    · have ht : t ≠ n := fun e => hn e.symm
      rw [lookup_cons_ne _ _ _ _ ht] at h
      rw [filter_cons_ne _ _ _ _ hn, List.length_cons, List.length_cons]
      exact Nat.succ_lt_succ (ih h)

/-- Enough fuel: beyond the length of the table the fuel does not matter. -/
theorem expandToken_fuel (f : Nat) : ∀ (g : Nat) (m : Definitions) (t : String),
    m.length ≤ f → m.length ≤ g → expandToken f m t = expandToken g m t := by
  induction f with
  | zero =>
    intro g m t hf _
    have hm : m = [] := List.length_eq_zero.mp (Nat.le_zero.mp hf)
    subst hm
    cases g <;> rfl
  | succ f ih =>
    intro g m t hf hg
    cases g with
    | zero =>
      have hm : m = [] := List.length_eq_zero.mp (Nat.le_zero.mp hg)
      subst hm
      rfl
    | succ g =>
      cases h : List.lookup t m with
      | none => simp only [expandToken, h]
      | some b =>
        have hlt := length_filter_lt m t b h
        simp only [expandToken, h]
        congr 1
        funext u
        exact ih g _ u (by omega) (by omega)

theorem expandToken_undefined (f : Nat) (m : Definitions) (t : String)
    (h : List.lookup t m = none) : expandToken f m t = [t] := by
  cases f
  · rfl
  · simp only [expandToken, h]

theorem flatMap_singleton_id (b : List String) : b.flatMap (fun u => [u]) = b := by
  induction b with
  | nil => rfl
  | cons u b ih => rw [List.flatMap_cons, ih]; rfl

theorem flatMap_eq_of_forall (f g : String → List String) (b : List String)
    (h : ∀ u ∈ b, f u = g u) : b.flatMap f = b.flatMap g := by
  induction b with
  | nil => rfl
  | cons u b ih =>
    rw [List.flatMap_cons, List.flatMap_cons, h u (List.mem_cons_self _ _),
      ih (fun v hv => h v (List.mem_cons_of_mem _ hv))]

theorem expandToken_plain (m : Definitions) (t : String) (b : List String)
    (h : List.lookup t m = some b) (hb : ∀ u ∈ b, List.lookup u m = none) :
    expandToken m.length m t = b := by
  cases m with
  | nil => cases h
  | cons p m =>
    simp only [List.length_cons, expandToken, h]
    rw [flatMap_eq_of_forall _ (fun u => [u]) b (fun u hu =>
      expandToken_undefined _ _ _ (lookup_filter_none _ _ _ (hb u hu)))]
    exact flatMap_singleton_id b

theorem expandToken_settled (m : Definitions) (r i T : List String) (h : Settled m r i T)
    (t : String) (ht : t ∈ T) : expandToken m.length m t = substToken r i t := by
  unfold substToken
  by_cases hr : t = "casadi_real"
  · rw [if_pos hr, hr]
    exact expandToken_plain m _ r h.1 h.2.2.1
  · rw [if_neg hr]
    by_cases hi : t = "casadi_int"
    · rw [if_pos hi, hi]
      exact expandToken_plain m _ i h.2.1 h.2.2.2.1
    · rw [if_neg hi]
      exact expandToken_undefined _ m t (h.2.2.2.2 t ht hr hi)

theorem expand_settled (m : Definitions) (r i T : List String) (h : Settled m r i T) :
    ∀ ty : CType, (∀ t ∈ ty.specTokens, t ∈ T) → expand m ty = substType r i ty := by
  intro ty
  induction ty with
  | base spec =>
    intro hT
    simp only [expand, substType]
    rw [flatMap_eq_of_forall _ (substToken r i) spec
      (fun t ht => expandToken_settled m r i T h t (hT t ht))]
  | const t ih =>
    intro hT
    simp only [expand, substType]
    rw [ih hT]
  | ptr t ih =>
    intro hT
    simp only [expand, substType]
    rw [ih hT]

theorem expandDecl_settled (m : Definitions) (r i T : List String) (h : Settled m r i T)
    (d : FunDecl) (hT : ∀ t ∈ d.specTokens, t ∈ T) : expandDecl m d = substDecl r i d := by
  unfold expandDecl substDecl
  have hret : expand m d.ret = substType r i d.ret :=
    expand_settled m r i T h d.ret (fun t ht => hT t (List.mem_append_left _ ht))
  have hps : d.params.map (fun p => ({ type := expand m p.type, name := p.name } : Param))
      = d.params.map (fun p => ({ type := substType r i p.type, name := p.name } : Param)) := by
    apply List.map_congr_left
    intro p hp
    have : expand m p.type = substType r i p.type :=
      expand_settled m r i T h p.type (fun t ht =>
        hT t (List.mem_append_right _ (List.mem_flatMap.mpr ⟨p, hp, ht⟩)))
    rw [this]
  rw [hret, hps]

theorem settled_cons (m : Definitions) (r i T : List String) (h : Settled m r i T)
    (n : String) (b : List String) (hr : n ≠ "casadi_real") (hi : n ≠ "casadi_int")
    (hnr : n ∉ r) (hni : n ∉ i) (hnT : n ∉ T) : Settled ((n, b) :: m) r i T := by
  refine ⟨?_, ?_, ?_, ?_, ?_⟩
  · rw [lookup_cons_ne _ _ _ _ (Ne.symm hr)]; exact h.1
  · rw [lookup_cons_ne _ _ _ _ (Ne.symm hi)]; exact h.2.1
  · intro t ht
    rw [lookup_cons_ne _ _ _ _ (fun (e : t = n) => hnr (by rw [← e]; exact ht))]
    exact h.2.2.1 t ht
  · intro t ht
    rw [lookup_cons_ne _ _ _ _ (fun (e : t = n) => hni (by rw [← e]; exact ht))]
    exact h.2.2.2.1 t ht
  · intro t ht h1 h2
    rw [lookup_cons_ne _ _ _ _ (fun (e : t = n) => hnT (by rw [← e]; exact ht))]
    exact h.2.2.2.2 t ht h1 h2

/-- Over lines without guarded definitions, preprocessing under settled
definitions replaces the two guarded names and nothing else. -/
theorem preprocess_settled (r i T : List String) : ∀ (ls : List Line) (m : Definitions),
    guardedNames ls = [] →
    (∀ d ∈ prototypes ls, ∀ t ∈ d.specTokens, t ∈ T) →
    (∀ n ∈ (defines ls).map Prod.fst,
      n ≠ "casadi_real" ∧ n ≠ "casadi_int" ∧ n ∉ r ∧ n ∉ i ∧ n ∉ T) →
    Settled m r i T → preprocess m ls = (prototypes ls).map (substDecl r i) := by
  intro ls
  induction ls with
  | nil => intro m _ _ _ _; rfl
  | cons l ls ih =>
    intro m hg hp hd hs
    cases l with
    | ifdef_cplusplus_open => exact ih m hg hp hd hs
    | ifdef_cplusplus_close => exact ih m hg hp hd hs
    | ifndef_define n b => simp [guardedNames] at hg
    | proto d =>
      simp only [preprocess, prototypes, List.map_cons]
      rw [expandDecl_settled m r i T hs d (hp d (by simp [prototypes])),
        ih m hg (fun e he => hp e (by simp [prototypes, he])) hd hs]
    | define n b =>
      simp only [preprocess, prototypes]
      have hn := hd n (by simp [defines])
      exact ih _ hg hp (fun k hk => hd k (by
          simp only [defines, List.map_cons, List.mem_cons]
          exact Or.inr hk))
        (settled_cons m r i T hs n b hn.1 hn.2.1 hn.2.2.1 hn.2.2.2.1 hn.2.2.2.2)

theorem lookup_defineIfAbsent_self (m : Definitions) (n : String) (b : List String) :
    List.lookup n (defineIfAbsent m n b) = some ((List.lookup n m).getD b) := by
  unfold defineIfAbsent
  cases h : List.lookup n m with
  | none => simp only [Option.getD_none]; exact lookup_cons_self m n b
  | some c => simp only [Option.getD_some]; exact h

theorem lookup_defineIfAbsent_ne (m : Definitions) (u n : String) (b : List String)
    (h : u ≠ n) : List.lookup u (defineIfAbsent m n b) = List.lookup u m := by
  unfold defineIfAbsent
  cases List.lookup n m with
  | none => exact lookup_cons_ne m u n b h
  | some c => rfl

theorem rdd2_h_eq :
    rdd2_h = .ifdef_cplusplus_open :: .ifndef_define "casadi_real" ["double"]
      :: .ifndef_define "casadi_int" ["long", "long", "int"] :: kernelLines := by
  simp only [rdd2_h, kernelLines, List.append_assoc, List.cons_append, List.nil_append]

theorem guardedNames_rdd2_h : guardedNames rdd2_h = ["casadi_real", "casadi_int"] := by
  decide

/-- Under the two conditions on the translation unit, the tokens a guarded
name stands for are defined neither by the unit nor by the header. -/
theorem guarded_body_free (pre : Predefined) (h1 : LeavesHeaderWords pre)
    (h2 : GuardedBodiesPlain pre) (n : String) (hn : n ∈ guardedNames rdd2_h)
    (dflt : List String)
    (hd : ∀ t ∈ dflt, t ∈ identifiers rdd2_h ∧ t ∉ definedNames rdd2_h) :
    ∀ t ∈ (List.lookup n pre).getD dflt,
      List.lookup t pre = none ∧ t ∉ definedNames rdd2_h := by
  intro t ht
  cases h : List.lookup n pre with
  | none =>
    rw [h] at ht
    have hdt := hd t ht
    refine ⟨h1 t hdt.1 (fun hg => hdt.2 (List.mem_append_left _ hg)), hdt.2⟩
  | some b =>
    have := (h2 n hn).2 t (by rw [h] at ht ⊢; exact ht)
    exact ⟨this.2.1, this.2.2⟩

/-- The declarations of a translation unit that leaves the words of the
header alone: the prototypes as written, with the two guarded names replaced
by what the unit, or else the header, defines them as. -/
theorem declarations_eq (pre : Predefined) (h1 : LeavesHeaderWords pre)
    (h2 : GuardedBodiesPlain pre) :
    declarations pre = (prototypes rdd2_h).map
      (substDecl ((List.lookup "casadi_real" pre).getD ["double"])
        ((List.lookup "casadi_int" pre).getD ["long", "long", "int"])) := by
  have hR := guarded_body_free pre h1 h2 "casadi_real" (by decide) ["double"] (by decide)
  have hI := guarded_body_free pre h1 h2 "casadi_int" (by decide) ["long", "long", "int"]
    (by decide)
  have hreal : "casadi_real" ∈ definedNames rdd2_h := by decide
  have hint : "casadi_int" ∈ definedNames rdd2_h := by decide
  have hne : ∀ t : String, t ∉ definedNames rdd2_h → t ≠ "casadi_real" ∧ t ≠ "casadi_int" :=
    fun t ht => ⟨fun e => ht (e ▸ hreal), fun e => ht (e ▸ hint)⟩
  have hlook : ∀ t : String, t ≠ "casadi_real" → t ≠ "casadi_int" →
      List.lookup t (defineIfAbsent (defineIfAbsent pre "casadi_real" ["double"])
        "casadi_int" ["long", "long", "int"]) = List.lookup t pre := by
    intro t hr hi
    rw [lookup_defineIfAbsent_ne _ _ _ _ hi, lookup_defineIfAbsent_ne _ _ _ _ hr]
  unfold declarations
  rw [rdd2_h_eq]
  simp only [preprocess, prototypes]
  apply preprocess_settled _ _ headerSpecTokens kernelLines _ (by decide) (by decide)
  · intro n hn
    have hdef : n ∈ definedNames rdd2_h := by
      revert n
      decide
    have hfix : n ≠ "casadi_real" ∧ n ≠ "casadi_int" ∧ n ∉ headerSpecTokens := by
      revert n
      decide
    exact ⟨hfix.1, hfix.2.1, fun hm => (hR n hm).2 hdef, fun hm => (hI n hm).2 hdef, hfix.2.2⟩
  · refine ⟨?_, ?_, ?_, ?_, ?_⟩
    · rw [lookup_defineIfAbsent_ne _ _ _ _ (by decide), lookup_defineIfAbsent_self]
    · rw [lookup_defineIfAbsent_self, lookup_defineIfAbsent_ne _ _ _ _ (by decide)]
    · intro t ht
      have := hR t ht
      rw [hlook t (hne t this.2).1 (hne t this.2).2]
      exact this.1
    · intro t ht
      have := hI t ht
      rw [hlook t (hne t this.2).1 (hne t this.2).2]
      exact this.1
    · intro t ht hr hi
      rw [hlook t hr hi]
      have hid : t ∈ identifiers rdd2_h := by
        revert t
        decide
      apply h1 t hid
      rw [guardedNames_rdd2_h]
      simp only [List.mem_cons, List.mem_singleton, List.not_mem_nil, or_false, not_or]
      exact ⟨hr, hi⟩

theorem sigOf_map_substDecl (r i : List String) (ds : List FunDecl) (n : String) :
    sigOf (ds.map (substDecl r i)) n = (sigOf ds n).map (substSig r i) := by
  induction ds with
  | nil => rfl
  | cons d ds ih =>
    unfold sigOf findDecl at ih ⊢
    rw [List.map_cons, List.find?_cons, List.find?_cons]
    have hname : (substDecl r i d).name = d.name := rfl
    rw [hname]
    cases hd : decide (d.name = n) with
    | true =>
      simp only [Option.map_some']
      simp [FunDecl.signature, substDecl, substSig, List.map_map, Function.comp_def]
    | false => exact ih

theorem substSig_of_eq (r i : List String) (ds : List FunDecl) (n : String)
    (s : CType × List CType) (h : sigOf ds n = some s) :
    sigOf (ds.map (substDecl r i)) n = some (substSig r i s) := by
  rw [sigOf_map_substDecl, h]
  rfl

/-- The numeric positions as written carry over to the replaced
declarations. -/
theorem numericTypes_subst (r i : List String) (ds : List FunDecl) (k : String)
    (h : numericTypes casadi_real casadi_int ds k) :
    numericTypes (base r) (base i) (ds.map (substDecl r i)) k := by
  obtain ⟨h1, h2, h3, h4, h5, h6, h7, h8, h9, h10⟩ := h
  refine ⟨?_, ?_, ?_, ?_, ?_, ?_, ?_, ?_, ?_, ?_⟩
  · rw [substSig_of_eq r i ds _ _ h1]
    simp [substSig, substType, substToken, casadi_real, casadi_int, int, void, char]
  · rw [substSig_of_eq r i ds _ _ h2]
    simp [substSig, substType, substToken, casadi_real, casadi_int, int, void, char]
  · rw [substSig_of_eq r i ds _ _ h3]
    simp [substSig, substType, substToken, casadi_real, casadi_int, int, void, char]
  · rw [substSig_of_eq r i ds _ _ h4]
    simp [substSig, substType, substToken, casadi_real, casadi_int, int, void, char]
  · rw [substSig_of_eq r i ds _ _ h5]
    simp [substSig, substType, substToken, casadi_real, casadi_int, int, void, char]
  · rw [substSig_of_eq r i ds _ _ h6]
    simp [substSig, substType, substToken, casadi_real, casadi_int, int, void, char]
  · rw [substSig_of_eq r i ds _ _ h7]
    simp [substSig, substType, substToken, casadi_real, casadi_int, int, void, char]
  · rw [substSig_of_eq r i ds _ _ h8]
    simp [substSig, substType, substToken, casadi_real, casadi_int, int, void, char]
  · rw [substSig_of_eq r i ds _ _ h9]
    simp [substSig, substType, substToken, casadi_real, casadi_int, int, void, char]
  · rw [substSig_of_eq r i ds _ _ h10]
    simp [substSig, substType, substToken, casadi_real, casadi_int, int, void, char]

/-- The lifecycle interface as written carries over to the replaced
declarations. -/
theorem lifecycle_subst (r i : List String) (ds : List FunDecl) (k : String)
    (h : lifecycleWithHandle int ds k) :
    lifecycleWithHandle int (ds.map (substDecl r i)) k := by
  obtain ⟨h1, h2, h3, h4, h5, h6, h7, h8⟩ := h
  refine ⟨?_, ?_, ?_, ?_, ?_, ?_, ?_, ?_⟩
  · rw [substSig_of_eq r i ds _ _ h1]; simp [substSig, substType, substToken, casadi_real, casadi_int, int, void, char]
  · rw [substSig_of_eq r i ds _ _ h2]; simp [substSig, substType, substToken, casadi_real, casadi_int, int, void, char]
  · rw [substSig_of_eq r i ds _ _ h3]; simp [substSig, substType, substToken, casadi_real, casadi_int, int, void, char]
  · rw [substSig_of_eq r i ds _ _ h4]; simp [substSig, substType, substToken, casadi_real, casadi_int, int, void, char]
  · rw [substSig_of_eq r i ds _ _ h5]; simp [substSig, substType, substToken, casadi_real, casadi_int, int, void, char]
  · rw [substSig_of_eq r i ds _ _ h6]; simp [substSig, substType, substToken, casadi_real, casadi_int, int, void, char]
  · rw [substSig_of_eq r i ds _ _ h7]; simp [substSig, substType, substToken, casadi_real, casadi_int, int, void, char]
  · rw [sigOf_map_substDecl]
    cases hs : sigOf ds k with
    | none => rw [hs] at h8; cases h8
    | some s =>
      rw [hs] at h8
      simp only [Option.map_some', Option.some_bind, substSig] at h8 ⊢
      rw [List.getLast?_map, h8]
      simp [substType, substToken, int]

/-- The preprocessor at work on definitions that the theorems below leave
out: a body is scanned again (`casadi_real` defined as `casadi_int` ends as
`long long int`), and a definition of `double` or of `int` made beforehand
reaches the prototypes. -/
theorem preprocess_rescans_and_applies_definitions :
    sigOf (declarations [("casadi_real", ["casadi_int"])]) "joy_acro_default_in"
      = some (long_long_int, [long_long_int]) ∧
    sigOf (declarations [("double", ["float"])]) "joy_acro_default_in"
      = some (float, [long_long_int]) ∧
    sigOf (declarations [("int", ["short"])]) "joy_acro_alloc_mem"
      = some (base ["short"], []) ∧
    ¬ LeavesHeaderWords [("double", ["float"])] ∧
    ¬ LeavesHeaderWords [("int", ["short"])] ∧
    ¬ GuardedBodiesPlain [("casadi_real", ["casadi_int"])] ∧
    ¬ GuardedBodiesPlain [("casadi_real", [])] := by
  decide

/-- C1: the names the header declares are, in source order and without
repetition, those of the seven kernels each followed by the seventeen
suffixes of the per-kernel function set: no member is missing and no other
function is declared. -/
theorem header_declares_exactly_the_kernel_function_set :
    kernels.length = 7 ∧ kernels.Nodup ∧
    memberSuffixes.length = 17 ∧ memberSuffixes.Nodup ∧
    declaredNames rdd2_h = functionSet kernels ∧
    (declaredNames rdd2_h).Nodup ∧
    (declaredNames rdd2_h).length = 7 * 17 := by
  decide

/-- C2: every kernel has exactly one evaluation prototype, and it is the
prototype of line 20 up to the function name: return type `int` and the five
parameters `const casadi_real**`, `casadi_real**`, `casadi_int*`,
`casadi_real*`, `int`, in this order. -/
theorem evaluation_prototypes_uniform (k : String) (hk : k ∈ kernels) :
    (prototypes rdd2_h).filter (fun d => d.name = k) = [evalDecl k] ∧
    (evalDecl k).params.length = 5 ∧
    (evalDecl k).signature =
      (int, [ptr (ptr (const casadi_real)), ptr (ptr casadi_real), ptr casadi_int,
             ptr casadi_real, int]) := by
  revert k
  decide

/-- C2 at the kernel `strapdown_ins_propagate`, line 125. -/
theorem evaluation_prototypes_uniform_witness :
    "strapdown_ins_propagate" ∈ kernels ∧
    (prototypes rdd2_h).filter (fun d => d.name = "strapdown_ins_propagate")
      = [evalDecl "strapdown_ins_propagate"] :=
  ⟨by decide, (evaluation_prototypes_uniform "strapdown_ins_propagate" (by decide)).1⟩

/-- C3: the unguarded `#define`s of the header are, in source order and
without repetition, the four size constants of each of the seven kernels;
each of these names has exactly one definition, its body is one integer
literal (which carries no sign), and no such name is defined under a guard
that the including translation unit could pre-empt. -/
theorem size_constants_defined_once_as_literals :
    sizeSuffixes.length = 4 ∧
    (defines rdd2_h).map Prod.fst = sizeConstantSet kernels ∧
    ((defines rdd2_h).map Prod.fst).Nodup ∧
    (∀ n ∈ sizeConstantSet kernels,
      ((defines rdd2_h).filter (fun p => p.1 = n)).length = 1 ∧
      (sizeConstant rdd2_h n).isSome = true ∧
      n ∉ guardedNames rdd2_h) := by
  decide

/-- C4, as stated, fails when the translation unit defines `casadi_real`
before including the header and touches nothing else of it: the guard of
lines 12-14 then leaves the name alone, and `attitude_rate_control_default_in`
returns `float`. -/
theorem numeric_type_follows_predefinition :
    LeavesHeaderWords realIsFloat ∧ GuardedBodiesPlain realIsFloat ∧
    sigOf (declarations realIsFloat) "attitude_rate_control_default_in"
      = some (float, [long_long_int]) ∧
    ¬ numericTypes double long_long_int (declarations realIsFloat) "attitude_rate_control" := by
  decide

/-- C4, amended: for a translation unit that defines none of the other words
of the header, and defines the two guarded names, if at all, as nonempty runs
of words that are not defined themselves, every kernel has all floating-point
positions of the one type `casadi_real` and all size and index positions of
the one type `casadi_int`; `casadi_real` is `double` and `casadi_int` is
`long long int` unless the unit has defined the name beforehand, when it is
that definition. -/
theorem numeric_types_default_double_and_long_long (pre : Predefined) (k : String)
    (hk : k ∈ kernels) (hwords : LeavesHeaderWords pre) (hplain : GuardedBodiesPlain pre) :
    numericTypes (base ((List.lookup "casadi_real" pre).getD ["double"]))
      (base ((List.lookup "casadi_int" pre).getD ["long", "long", "int"]))
      (declarations pre) k ∧
    (List.lookup "casadi_real" pre = none → List.lookup "casadi_int" pre = none →
      numericTypes double long_long_int (declarations pre) k) := by
  have h0 : numericTypes casadi_real casadi_int (prototypes rdd2_h) k := by
    revert k
    decide
  have h := numericTypes_subst ((List.lookup "casadi_real" pre).getD ["double"])
    ((List.lookup "casadi_int" pre).getD ["long", "long", "int"]) (prototypes rdd2_h) k h0
  rw [← declarations_eq pre hwords hplain] at h
  refine ⟨h, ?_⟩
  intro hr hi
  rw [hr, hi] at h
  exact h

/-- C4, amended, at `control_allocation`: compiled with
`-DNDEBUG -Dcasadi_int=long` the types are `double` and `long`, and for the
header included on its own they are `double` and `long long int`. -/
theorem numeric_types_default_double_and_long_long_witness :
    "control_allocation" ∈ kernels ∧
    LeavesHeaderWords intIsLong ∧ GuardedBodiesPlain intIsLong ∧
    numericTypes double (base ["long"]) (declarations intIsLong) "control_allocation" ∧
    LeavesHeaderWords nothingPredefined ∧ GuardedBodiesPlain nothingPredefined ∧
    numericTypes double long_long_int (declarations nothingPredefined) "control_allocation" :=
  ⟨by decide, by decide, by decide,
   (numeric_types_default_double_and_long_long intIsLong "control_allocation" (by decide)
      (by decide) (by decide)).1,
   by decide, by decide,
   (numeric_types_default_double_and_long_long nothingPredefined "control_allocation"
      (by decide) (by decide) (by decide)).2 rfl rfl⟩

/-- C5: for a translation unit that defines none of the other words of the
header, and defines the two guarded names, if at all, as nonempty runs of
words that are not defined themselves (the header included on its own is
one), every
kernel's lifecycle interface uses `int` as the one handle type: `alloc_mem`
and `checkout` take nothing and return it, `init_mem` takes it and returns
`int`, `free_mem` and `release` take it and return nothing, `incref` and
`decref` take and return nothing, and it is the type of the last parameter of
the evaluation function. -/
theorem lifecycle_handle_is_int (pre : Predefined) (k : String) (hk : k ∈ kernels)
    (hwords : LeavesHeaderWords pre) (hplain : GuardedBodiesPlain pre) :
    lifecycleWithHandle int (declarations pre) k := by
  have h0 : lifecycleWithHandle int (prototypes rdd2_h) k := by
    revert k
    decide
  rw [declarations_eq pre hwords hplain]
  exact lifecycle_subst _ _ _ k h0

/-- C5 at `attitude_rate_control`, lines 20-27, for the header included on
its own. -/
theorem lifecycle_handle_is_int_witness :
    "attitude_rate_control" ∈ kernels ∧
    LeavesHeaderWords nothingPredefined ∧ GuardedBodiesPlain nothingPredefined ∧
    lifecycleWithHandle int (declarations nothingPredefined) "attitude_rate_control" :=
  ⟨by decide, by decide, by decide,
   lifecycle_handle_is_int nothingPredefined "attitude_rate_control" (by decide) (by decide)
     (by decide)⟩

/-- C10: for every kernel the integer-scratch length is 0 and the
argument-array, result-array and real-scratch lengths are at least 1. -/
theorem integer_scratch_zero_other_sizes_positive (k : String) (hk : k ∈ kernels) :
    sizeConstant rdd2_h (k ++ "_SZ_IW") = some 0 ∧
    (∃ a, sizeConstant rdd2_h (k ++ "_SZ_ARG") = some a ∧ 1 ≤ a) ∧
    (∃ r, sizeConstant rdd2_h (k ++ "_SZ_RES") = some r ∧ 1 ≤ r) ∧
    (∃ w, sizeConstant rdd2_h (k ++ "_SZ_W") = some w ∧ 1 ≤ w) := by
  simp only [kernels, List.mem_cons, List.mem_singleton, List.not_mem_nil, or_false] at hk
  rcases hk with rfl | rfl | rfl | rfl | rfl | rfl | rfl
  · exact ⟨by decide, ⟨11, by decide, by decide⟩, ⟨5, by decide, by decide⟩,
      ⟨17, by decide, by decide⟩⟩
  · exact ⟨by decide, ⟨3, by decide, by decide⟩, ⟨1, by decide, by decide⟩,
      ⟨15, by decide, by decide⟩⟩
  · exact ⟨by decide, ⟨10, by decide, by decide⟩, ⟨3, by decide, by decide⟩,
      ⟨30, by decide, by decide⟩⟩
  · exact ⟨by decide, ⟨6, by decide, by decide⟩, ⟨2, by decide, by decide⟩,
      ⟨2, by decide, by decide⟩⟩
  · exact ⟨by decide, ⟨7, by decide, by decide⟩, ⟨2, by decide, by decide⟩,
      ⟨28, by decide, by decide⟩⟩
  · exact ⟨by decide, ⟨5, by decide, by decide⟩, ⟨1, by decide, by decide⟩,
      ⟨45, by decide, by decide⟩⟩
  · exact ⟨by decide, ⟨6, by decide, by decide⟩, ⟨1, by decide, by decide⟩,
      ⟨25, by decide, by decide⟩⟩

/-- C10 at `joy_acro`, lines 100-103: the sizes are 6, 2, 0 and 2. -/
theorem integer_scratch_zero_other_sizes_positive_witness :
    "joy_acro" ∈ kernels ∧ sizeConstant rdd2_h "joy_acro_SZ_IW" = some 0 ∧
    ∃ w, sizeConstant rdd2_h "joy_acro_SZ_W" = some w ∧ 1 ≤ w :=
  ⟨by decide, (integer_scratch_zero_other_sizes_positive "joy_acro" (by decide)).1,
   (integer_scratch_zero_other_sizes_positive "joy_acro" (by decide)).2.2.2⟩

end Rdd2

/-!
## The reference count
-/

namespace MemoryInstanceManager

end MemoryInstanceManager

/-!
## Propagation at rest
-/

namespace StateEstimator

end StateEstimator
